import Mathlib

/-!
Shallow embedding of `dropafile.py` (the dropafile repository's single
source module) together with the parts of its direct library collaborators
that the program's behaviour depends on (werkzeug's `secure_filename`,
posix `os.path.join`, and the shape of `ssl.SSLContext`).

Conventions of the embedding:
* Python strings are `String`; file contents are `String`.
* The file system is explicit: request handling returns, besides the
  response, the list of `(path, content)` writes it performs. Two views of
  the static-asset read exist: `call` reads from a snapshot
  `assets : String → String` of the static directory, while `callFS`
  threads one file-system state `fs : String → String` through the whole
  request, so the asset read — which the source performs *after* saving the
  upload — observes the same call's write when their paths collide.
* Randomness (`random.SystemRandom().choice`) is a function parameter
  `rnd : Nat → Nat` giving the index chosen at each draw; `tempfile.mkdtemp`
  results and `os.path.dirname(__file__)` are string parameters.
* The external `openssl` process (`subprocess.Popen` + `communicate`) is a
  parameter `run : List String → Nat × String × String` mapping the argv to
  the process's (exit status, stdout, stderr) after termination.
-/

namespace Dropafile

/-- `PATH_MAP` from dropafile.py: request path ↦ (asset file name, mimetype). -/
def PATH_MAP : List (String × String × String) :=
  [("/dropzone.js", ("dropzone.js", "text/javascript")),
   ("/dropzone.css", ("dropzone.css", "text/css")),
   ("/style.css", ("style.css", "text/css")),
   ("/index.html", ("page.html", "text/html"))]

/-- Dictionary lookup in `PATH_MAP` (Python `PATH_MAP[path]` / `in PATH_MAP.keys()`). -/
def pathMapLookup (p : String) : Option (String × String) :=
  (PATH_MAP.find? (fun kv => kv.1 == p)).map (fun kv => kv.2)

/-- `ALLOWED_PWD_CHARS` from dropafile.py, copied verbatim. -/
def ALLOWED_PWD_CHARS : String :=
  "ABCDEFGHJKLMNPQRSTUVWXYZ23456789abcdefghjkmnpqrstuvwxyz"

/-- `get_random_password` from dropafile.py: 23 draws from `ALLOWED_PWD_CHARS`.
`rnd i` is the raw index the random source produces for draw `i`; `choice`
always yields a valid index, which we model by reducing modulo the length. -/
def get_random_password (rnd : Nat → Nat) : String :=
  String.mk ((List.range 23).map
    (fun i => ALLOWED_PWD_CHARS.data.getD (rnd i % ALLOWED_PWD_CHARS.length) 'A'))

/-- HTTP Basic-Auth credentials as parsed by werkzeug (`request.authorization`). -/
structure Authorization where
  username : String
  password : String
deriving DecidableEq, Repr

/-- One uploaded multipart file part: client-supplied filename and content. -/
structure UploadedFile where
  filename : String
  content : String
deriving DecidableEq, Repr

/-- An incoming request as the application observes it: `request.path`,
`request.authorization` (none when absent or unparsable), and
`request.files` as an association list of (field name, file part). -/
structure Request where
  path : String
  authorization : Option Authorization
  files : List (String × UploadedFile)
deriving DecidableEq, Repr

/-- `request.files.get(key, None)`: first file part under `key`, if any. -/
def Request.filesGet (req : Request) (key : String) : Option UploadedFile :=
  (req.files.find? (fun kv => kv.1 == key)).map (fun kv => kv.2)

/-- A werkzeug `Response` as far as dropafile builds them: status code,
body, and headers (content type travels as a `Content-Type` header). -/
structure Response where
  status : Nat
  body : String
  headers : List (String × String)
deriving DecidableEq, Repr

/-- The response's effective content type: its `Content-Type` header value. -/
def Response.contentType (r : Response) : Option String :=
  (r.headers.find? (fun kv => kv.1 == "Content-Type")).map (fun kv => kv.2)

/-- Python `str.split()` whitespace: space, tab, newline, return, vtab, formfeed. -/
def pyIsSpace (c : Char) : Bool :=
  c = ' ' ∨ c = '\t' ∨ c = '\n' ∨ c = '\r' ∨ c = '\x0b' ∨ c = '\x0c'

/-- Python `str.split()` (no separator): maximal runs of non-whitespace. -/
def splitWs : List Char → List Char → List (List Char)
  | [], acc => if acc.isEmpty then [] else [acc.reverse]
  | c :: rest, acc =>
    if pyIsSpace c then
      if acc.isEmpty then splitWs rest [] else acc.reverse :: splitWs rest []
    else splitWs rest (c :: acc)

/-- The character class kept by werkzeug's `_filename_ascii_strip_re`
(`[^A-Za-z0-9_.-]` is deleted). -/
def filenameKeepChar (c : Char) : Bool :=
  ('A' ≤ c ∧ c ≤ 'Z') ∨ ('a' ≤ c ∧ c ≤ 'z') ∨ ('0' ≤ c ∧ c ≤ '9') ∨
    c = '_' ∨ c = '.' ∨ c = '-'

/-- The characters removed at both ends by `.strip('._')`. -/
def stripDotUnderscore (c : Char) : Bool :=
  c = '.' ∨ c = '_'

/-- Python `str.strip(chars)`: drop characters satisfying `p` from both ends. -/
def pyStrip (p : Char → Bool) (l : List Char) : List Char :=
  (l.dropWhile p).rdropWhile p

/-- The character-list pipeline of werkzeug `secure_filename` on a posix
system: `os.path.sep` (`'/'`) is replaced by a space (`os.path.altsep` is
`None`), the result is whitespace-split and re-joined with `'_'`, every
character outside `[A-Za-z0-9_.-]` is deleted (this subsumes the
ascii-encode step for the kept alphabet), and leading/trailing `'.'`/`'_'`
are stripped. -/
def secureFilenameChars (l : List Char) : List Char :=
  pyStrip stripDotUnderscore
    ((List.intercalate ['_']
        (splitWs (l.map (fun c => if c = '/' then ' ' else c)) [])).filter
      filenameKeepChar)

/-- werkzeug `secure_filename` (the pre-1.0 `from werkzeug import
secure_filename` the module imports), on a posix system; the
`os.name == 'nt'` device-file branch does not apply there. -/
def secure_filename (filename : String) : String :=
  String.mk (secureFilenameChars filename.data)

/-- posix `os.path.join(a, b)` for one component: `b` if `b` is absolute,
else `a + b` when `a` is empty or ends with the separator, else `a + '/' + b`. -/
def os_path_join (a b : String) : String :=
  if b.data.head? = some '/' then b
  else if a = "" ∨ a.data.getLast? = some '/' then a ++ b
  else a ++ "/" ++ b

/-- `DropAFileApplication`'s state: the shared password and the upload
directory, both fixed at construction. -/
structure DropAFileApplication where
  password : String
  upload_dir : String
deriving DecidableEq, Repr

/-- `DropAFileApplication.__init__(password=None, upload_dir=None)`:
a missing password is generated via `get_random_password`, a missing
upload directory is a fresh `tempfile.mkdtemp()` (passed in as `tmpdir`). -/
def DropAFileApplication.init (password : Option String)
    (upload_dir : Option String) (rnd : Nat → Nat) (tmpdir : String) :
    DropAFileApplication :=
  { password :=
      match password with
      | none => get_random_password rnd
      | some pw => pw,
    upload_dir :=
      match upload_dir with
      | none => tmpdir
      | some d => d }

/-- `DropAFileApplication.check_auth`: accept any username, only _the_ password. -/
def DropAFileApplication.check_auth (app : DropAFileApplication)
    (req : Request) : Bool :=
  match req.authorization with
  | none => false
  | some auth => if auth.password ≠ app.password then false else true

/-- `DropAFileApplication.authenticate`: the 401 basic-auth challenge response. -/
def DropAFileApplication.authenticate (_self : DropAFileApplication) : Response :=
  { status := 401,
    body := "<!DOCTYPE HTML PUBLIC \"-//W3C//DTD HTML 3.2 Final//EN\">\n<title>401 Unauthorized</title>\n<h1>Unauthorized</h1><p>You are not authorized to use this service.</p>",
    headers := [("WWW-Authenticate", "Basic realm=\"Login required\""),
                ("Content-Type", "text/html")] }

/-- `DropAFileApplication.handle_uploaded_files`: the list of file-system
writes the call performs — empty when no `file` field is present, otherwise
the single write of the file's content to
`os.path.join(upload_dir, secure_filename(filename))`. -/
def DropAFileApplication.handle_uploaded_files (app : DropAFileApplication)
    (req : Request) : List (String × String) :=
  match req.filesGet "file" with
  | none => []
  | some f =>
    [(os_path_join app.upload_dir (secure_filename f.filename), f.content)]

/-- The static-routing tail of `__call__`: fall back to `/index.html` for
unknown paths, read the mapped asset, respond 200 with its mimetype. -/
def staticResolve (assets : String → String) (path : String) : Response :=
  let p := if (pathMapLookup path).isSome then path else "/index.html"
  let fm := (pathMapLookup p).getD ("page.html", "text/html")
  { status := 200, body := assets fm.1, headers := [("Content-Type", fm.2)] }

/-- `DropAFileApplication.__call__`: the request-handling entry point.
Returns the response together with the file-system writes performed.
`assets name` is the content of `<module dir>/static/<name>` as a snapshot:
this view cannot observe the call's own writes, which is accurate exactly
when no write targets the asset file being read — `callFS` below is the
refinement that threads one file-system state through save and read in the
source's order. -/
def DropAFileApplication.call (app : DropAFileApplication)
    (assets : String → String) (req : Request) :
    Response × List (String × String) :=
  if ¬ app.check_auth req then (app.authenticate, [])
  else
    let writes := app.handle_uploaded_files req
    (staticResolve assets req.path, writes)

/-- `PATH_MAP` resolution as `__call__` performs it: the looked-up
(asset file name, mimetype) pair, with the `/index.html` fallback for
unmapped paths. -/
def resolvedAsset (path : String) : String × String :=
  (pathMapLookup
      (if (pathMapLookup path).isSome then path else "/index.html")).getD
    ("page.html", "text/html")

/-- Apply a list of file writes to a file-system state in order; a later
write to the same path wins, as successive `save` calls do. -/
def applyWrites (fs : String → String) (ws : List (String × String)) :
    String → String :=
  ws.foldl (fun acc kv => fun p => if p = kv.1 then kv.2 else acc p) fs

/-- `os.path.join(os.path.dirname(__file__), 'static', filename)`: the
path `__call__` opens to serve a static asset. -/
def staticFilePath (moduleDir filename : String) : String :=
  os_path_join (os_path_join moduleDir "static") filename

/-- `DropAFileApplication.__call__` with the file system threaded through:
`fs` is the file-system state when the request arrives, and the static
asset is read from the state *after* `handle_uploaded_files` has saved the
upload, reproducing the source's ordering (save at dropafile.py line 126,
open at lines 137-140). This refines `call`: the two differ exactly when
the upload's destination path is the asset file being read. -/
def DropAFileApplication.callFS (app : DropAFileApplication)
    (moduleDir : String) (fs : String → String) (req : Request) :
    Response × List (String × String) :=
  if ¬ app.check_auth req then (app.authenticate, [])
  else
    let writes := app.handle_uploaded_files req
    let fs2 := applyWrites fs writes
    let fm := resolvedAsset req.path
    ({ status := 200, body := fs2 (staticFilePath moduleDir fm.1),
       headers := [("Content-Type", fm.2)] }, writes)

/-- Destination `p` lies strictly under directory `dir`: it is
`dir ++ "/" ++ base` for a base name that contains no path separator and
does not begin with a dot (so in particular is not `..` or `.`). -/
def insideDir (dir p : String) : Prop :=
  ∃ base : String, p = dir ++ "/" ++ base ∧
    (∀ c ∈ base.data, c ≠ '/') ∧ base.data.head? ≠ some '.'

/-- `execute_cmd`: runs the command and returns `(stdout, stderr)` from
`proc.communicate()`. `behavior` is the terminated process's
(exit status, stdout, stderr); the exit status is not inspected. -/
def execute_cmd (behavior : Nat × String × String) : String × String :=
  match behavior with
  | (_status, out, err) => (out, err)

/-- `create_ssl_cert(path=None, bits=4096, days=2, cn='localhost',
country='US', state='', location='')`: builds the openssl argv, runs it via
`execute_cmd`, and returns `(cert_path, key_path)`. `mkdtemp` is the fresh
temp directory used when `path` is `None`; `moduleDir` is
`os.path.dirname(__file__)`; `run` maps the argv to the process behavior. -/
def create_ssl_cert (path : Option String) (bits days : Nat)
    (cn country state location : String) (mkdtemp moduleDir : String)
    (run : List String → Nat × String × String) : String × String :=
  let p := match path with | none => mkdtemp | some q => q
  let cert_path := os_path_join p "cert.pem"
  let key_path := os_path_join p "cert.key"
  let openssl_conf := os_path_join moduleDir "openssl.conf"
  let subject := "/C=" ++ country ++ "/ST=" ++ state ++ "/L=" ++ location ++
    "/O=/OU=/CN=" ++ cn ++ "/emailAddress=/"
  let cmd := ["openssl", "req", "-x509", "-newkey", "rsa:" ++ toString bits,
    "-nodes", "-out", cert_path, "-keyout", key_path, "-days", toString days,
    "-sha256", "-config", openssl_conf, "-batch", "-subj", subject]
  let _captured := execute_cmd (run cmd)
  (cert_path, key_path)

/-- `ssl.PROTOCOL_SSLv23` (CPython constant). -/
def PROTOCOL_SSLv23 : Nat := 2

/-- `ssl.OP_NO_SSLv2` = 0x01000000. -/
def OP_NO_SSLv2 : Nat := 16777216

/-- `ssl.OP_NO_SSLv3` = 0x02000000. -/
def OP_NO_SSLv3 : Nat := 33554432

/-- An `ssl.SSLContext` as dropafile configures it: the protocol selector,
the options bitmask, and the certificate chain/key loaded into it. -/
structure SSLContext where
  protocol : Nat
  options : Nat
  certChain : Option (String × String)
deriving DecidableEq, Repr

/-- `get_ssl_context(cert_path=None, key_path=None)` on a Python with
`ssl.SSLContext` (the modern branch): provision a certificate when either
path is missing, build an `SSLContext(PROTOCOL_SSLv23)` whose default
options are `defaultOptions`, OR in `OP_NO_SSLv2` and `OP_NO_SSLv3`, and
load the certificate chain. -/
def get_ssl_context (cert_path key_path : Option String)
    (defaultOptions : Nat) (mkdtemp moduleDir : String)
    (run : List String → Nat × String × String) : SSLContext :=
  let ck : String × String :=
    if key_path.isNone ∨ cert_path.isNone then
      create_ssl_cert none 4096 2 "localhost" "US" "" "" mkdtemp moduleDir run
    else (cert_path.getD "", key_path.getD "")
  { protocol := PROTOCOL_SSLv23,
    options := defaultOptions ||| OP_NO_SSLv2 ||| OP_NO_SSLv3,
    certChain := some ck }

/-! ### Helper lemmas -/

theorem mem_of_mem_pyStrip {p : Char → Bool} {l : List Char} {x : Char}
    (hx : x ∈ pyStrip p l) : x ∈ l := by
  unfold pyStrip at hx
  have h1 : x ∈ l.dropWhile p :=
    List.IsPrefix.mem hx ( List.rdropWhile_prefix p (l.dropWhile p))
  exact List.IsSuffix.mem h1 (List.dropWhile_suffix p)

theorem pyStrip_head?_false {p : Char → Bool} {l : List Char} {c : Char}
    (hc : (pyStrip p l).head? = some c) : p c = false := by
  unfold pyStrip at hc
  obtain ⟨t, ht⟩ :=  List.rdropWhile_prefix p (l.dropWhile p)
  cases hl : (l.dropWhile p).rdropWhile p with
  | nil => rw [hl] at hc; exact absurd hc (by simp)
  | cons a rest =>
    rw [hl] at hc ht
    have hac : a = c := by simpa using hc
    subst hac
    have h1 : (l.dropWhile p).head? = some a := by
      rw [← ht]; rfl
    have h2 := List.head?_dropWhile_not p l
    rw [h1] at h2
    exact h2

theorem secureFilenameChars_keep {l : List Char} {c : Char}
    (hc : c ∈ secureFilenameChars l) : filenameKeepChar c = true := by
  unfold secureFilenameChars at hc
  exact List.of_mem_filter (mem_of_mem_pyStrip hc)

theorem secure_filename_no_slash (name : String) :
    ∀ c ∈ (secure_filename name).data, c ≠ '/' := by
  intro c hc h
  subst h
  exact absurd (secureFilenameChars_keep hc) (by decide)

theorem secure_filename_head_not_dot (name : String) :
    (secure_filename name).data.head? ≠ some '.' := by
  intro h
  have h1 : stripDotUnderscore '.' = false := pyStrip_head?_false h
  exact absurd h1 (by decide)

theorem secure_filename_head_not_slash (name : String) :
    (secure_filename name).data.head? ≠ some '/' := by
  intro h
  have hmem : '/' ∈ (secure_filename name).data := by
    cases hd : (secure_filename name).data with
    | nil => rw [hd] at h; exact absurd h (by simp)
    | cons a t =>
      rw [hd] at h
      have : a = '/' := by simpa using h
      rw [← this]
      exact List.mem_cons_self _ _
  exact secure_filename_no_slash name '/' hmem rfl

theorem os_path_join_of_secure (dir name : String)
    (h1 : dir ≠ "") (h2 : dir.data.getLast? ≠ some '/') :
    os_path_join dir (secure_filename name) =
      dir ++ "/" ++ secure_filename name := by
  unfold os_path_join
  rw [if_neg (secure_filename_head_not_slash name), if_neg]
  intro hor
  exact hor.elim h1 h2

theorem os_path_join_eq (a b : String) (hb : b.data.head? ≠ some '/')
    (ha1 : a ≠ "") (ha2 : a.data.getLast? ≠ some '/') :
    os_path_join a b = a ++ "/" ++ b := by
  unfold os_path_join
  rw [if_neg hb, if_neg]
  intro hor
  exact hor.elim ha1 ha2

theorem head?_ne_slash_of_no_slash {l : List Char}
    (h : ∀ c ∈ l, c ≠ '/') : l.head? ≠ some '/' := by
  intro hh
  cases l with
  | nil => simp at hh
  | cons a t =>
    have ha : a = '/' := by simpa using hh
    exact h a (List.mem_cons_self _ _) ha

theorem applyWrites_not_written (fs : String → String)
    (ws : List (String × String)) (p : String)
    (h : ∀ w ∈ ws, w.1 ≠ p) : applyWrites fs ws p = fs p := by
  induction ws generalizing fs with
  | nil => rfl
  | cons w ws ih =>
    have hw : w.1 ≠ p := h w (List.mem_cons_self _ _)
    have hstep : applyWrites fs (w :: ws) p =
        applyWrites (fun q => if q = w.1 then w.2 else fs q) ws p := by
      simp [applyWrites]
    rw [hstep, ih _ (fun x hx => h x (List.mem_cons_of_mem _ hx))]
    exact if_neg (fun he => hw he.symm)

theorem sepFree_append_inj : ∀ {s1 s2 t1 t2 : List Char},
    (∀ c ∈ s1, c ≠ '/') → (∀ c ∈ s2, c ≠ '/') →
    s1 ++ '/' :: t1 = s2 ++ '/' :: t2 → s1 = s2 ∧ t1 = t2 := by
  intro s1
  induction s1 with
  | nil =>
    intro s2 t1 t2 h1 h2 h
    cases s2 with
    | nil => simpa using h
    | cons b s2' =>
      simp only [List.nil_append, List.cons_append, List.cons.injEq] at h
      exact absurd h.1.symm (h2 b (List.mem_cons_self _ _))
  | cons a s1' ih =>
    intro s2 t1 t2 h1 h2 h
    cases s2 with
    | nil =>
      simp only [List.nil_append, List.cons_append, List.cons.injEq] at h
      exact absurd h.1 (h1 a (List.mem_cons_self _ _))
    | cons b s2' =>
      simp only [List.cons_append, List.cons.injEq] at h
      obtain ⟨hab, hrest⟩ := h
      obtain ⟨hs, ht⟩ := ih (fun c hc => h1 c (List.mem_cons_of_mem _ hc))
        (fun c hc => h2 c (List.mem_cons_of_mem _ hc)) hrest
      exact ⟨by rw [hab, hs], ht⟩

theorem path_under_ne {d1 b1 d2 b2 : String}
    (hb1 : ∀ c ∈ b1.data, c ≠ '/') (hb2 : ∀ c ∈ b2.data, c ≠ '/')
    (hd : d1 ≠ d2) : d1 ++ "/" ++ b1 ≠ d2 ++ "/" ++ b2 := by
  intro h
  have hdata : d1.data ++ '/' :: b1.data = d2.data ++ '/' :: b2.data := by
    have := congrArg String.data h
    simpa [List.append_assoc] using this
  have hrev : b1.data.reverse ++ '/' :: d1.data.reverse =
      b2.data.reverse ++ '/' :: d2.data.reverse := by
    have := congrArg List.reverse hdata
    simpa [List.append_assoc] using this
  obtain ⟨_, ht⟩ := sepFree_append_inj
    (fun c hc => hb1 c (List.mem_reverse.mp hc))
    (fun c hc => hb2 c (List.mem_reverse.mp hc)) hrev
  exact hd (String.ext (List.reverse_injective ht))

theorem static_dir_last (moduleDir : String) :
    (os_path_join moduleDir "static").data.getLast? = some 'c' := by
  have hs : ("static" : String).data.getLast? = some 'c' := by decide
  unfold os_path_join
  split
  · exact hs
  · split
    · rw [String.data_append, List.getLast?_append, hs]
      rfl
    · rw [String.data_append, List.getLast?_append, hs]
      rfl

theorem static_dir_ne_empty (moduleDir : String) :
    os_path_join moduleDir "static" ≠ "" := by
  intro h
  have hl := static_dir_last moduleDir
  rw [h] at hl
  exact absurd hl (by decide)

theorem static_dir_last_ne_slash (moduleDir : String) :
    (os_path_join moduleDir "static").data.getLast? ≠ some '/' := by
  rw [static_dir_last]
  decide

theorem resolvedAsset_no_slash (path : String) :
    ∀ c ∈ (resolvedAsset path).1.data, c ≠ '/' := by
  unfold resolvedAsset
  cases hf : pathMapLookup
      (if (pathMapLookup path).isSome then path else "/index.html") with
  | none => decide
  | some fm =>
    unfold pathMapLookup at hf
    obtain ⟨kv, hkv, hkv2⟩ := Option.map_eq_some'.mp hf
    have hmem := List.mem_of_find?_eq_some hkv
    subst hkv2
    simp only [Option.getD_some]
    simp only [PATH_MAP, List.mem_cons, List.not_mem_nil, or_false] at hmem
    rcases hmem with h | h | h | h <;> subst h <;> decide

/-! ### Claim theorems -/

/-- Claim C1: `check_auth` returns true iff the request carries Basic-Auth
credentials whose password is exactly the application's password, regardless
of the username (including an empty one); it returns false when no
credentials are present and when the supplied password differs. -/
theorem check_auth_iff_password_match (app : DropAFileApplication)
    (req : Request) :
    app.check_auth req = true ↔
      ∃ a : Authorization, req.authorization = some a ∧
        a.password = app.password := by
  unfold DropAFileApplication.check_auth
  rcases hauth : req.authorization with _ | a
  · simp
  · by_cases hp : a.password = app.password
    · simp [hp]
    · simp [hp]

/-- Concrete instance of C1: a request with empty username and the right
password is authenticated. -/
theorem check_auth_iff_password_match_witness :
    (DropAFileApplication.mk "pw" "/up").check_auth
      { path := "/", authorization := some ⟨"", "pw"⟩, files := [] } = true :=
  (check_auth_iff_password_match (DropAFileApplication.mk "pw" "/up")
    { path := "/", authorization := some ⟨"", "pw"⟩, files := [] }).mpr
    ⟨⟨"", "pw"⟩, rfl, rfl⟩

/-- Claim C2: a request failing authentication gets the 401 challenge
response — `WWW-Authenticate: Basic` header, `text/html` content type —
and no further processing happens: the write list is empty, so the upload
directory is untouched. -/
theorem unauthenticated_rejected_no_side_effect (app : DropAFileApplication)
    (assets : String → String) (req : Request)
    (h : app.check_auth req = false) :
    app.call assets req = (app.authenticate, []) ∧
    (app.authenticate).status = 401 ∧
    (app.authenticate).headers.find? (fun kv => kv.1 == "WWW-Authenticate") =
      some ("WWW-Authenticate", "Basic realm=\"Login required\"") ∧
    (app.authenticate).contentType = some "text/html" := by
  refine ⟨?_, rfl, rfl, rfl⟩
  simp [DropAFileApplication.call, h]

/-- Concrete instance of C2: a credential-less request is rejected with the
challenge response and no writes. -/
theorem unauthenticated_rejected_no_side_effect_witness :
    (DropAFileApplication.mk "pw" "/up").call (fun _ => "")
        { path := "/", authorization := none, files := [] } =
      ((DropAFileApplication.mk "pw" "/up").authenticate, []) ∧
    ((DropAFileApplication.mk "pw" "/up").authenticate).status = 401 :=
  have h := unauthenticated_rejected_no_side_effect
    (DropAFileApplication.mk "pw" "/up") (fun _ => "")
    { path := "/", authorization := none, files := [] } rfl
  ⟨h.1, h.2.1⟩

/-- Claim C3: an authenticated upload is written exactly once, to
`upload_dir ++ "/" ++ secure_filename(name)` — a base name containing no
path separator and starting with no dot — hence never to a path outside
the upload directory, and every write goes through the sanitization. -/
theorem upload_confined_to_upload_dir (app : DropAFileApplication)
    (req : Request) (f : UploadedFile)
    (hf : req.filesGet "file" = some f)
    (h1 : app.upload_dir ≠ "")
    (h2 : app.upload_dir.data.getLast? ≠ some '/') :
    app.handle_uploaded_files req =
      [(app.upload_dir ++ "/" ++ secure_filename f.filename, f.content)] ∧
    insideDir app.upload_dir
      (app.upload_dir ++ "/" ++ secure_filename f.filename) := by
  constructor
  · unfold DropAFileApplication.handle_uploaded_files
    rw [hf]
    show [(os_path_join app.upload_dir (secure_filename f.filename),
        f.content)] = _
    rw [os_path_join_of_secure app.upload_dir f.filename h1 h2]
  · exact ⟨secure_filename f.filename, rfl,
      secure_filename_no_slash f.filename,
      secure_filename_head_not_dot f.filename⟩

/-- Concrete instance of C3: uploading `../../etc/passwd` stores
`etc_passwd` inside the upload directory. -/
theorem upload_confined_to_upload_dir_witness :
    (DropAFileApplication.mk "pw" "/up").handle_uploaded_files
      { path := "/", authorization := some ⟨"u", "pw"⟩,
        files := [("file", ⟨"../../etc/passwd", "hi"⟩)] } =
      [("/up/etc_passwd", "hi")] ∧
    insideDir "/up" "/up/etc_passwd" := by
  have h := upload_confined_to_upload_dir (DropAFileApplication.mk "pw" "/up")
    { path := "/", authorization := some ⟨"u", "pw"⟩,
      files := [("file", ⟨"../../etc/passwd", "hi"⟩)] }
    ⟨"../../etc/passwd", "hi"⟩ rfl (by decide) (by decide)
  have hs : "/up" ++ "/" ++ secure_filename "../../etc/passwd" =
      "/up/etc_passwd" := by decide
  rw [hs] at h
  exact h

/-- Claim C4, counterexample: the restricted password alphabet
`ALLOWED_PWD_CHARS` has 55 characters, not 57 — besides `0/O` and `1/l/I`,
the lowercase `i` and `o` are also absent. -/
theorem pwd_alphabet_size_not_57 :
    ALLOWED_PWD_CHARS.length = 55 ∧ ¬ ALLOWED_PWD_CHARS.length = 57 ∧
      ¬ 'i' ∈ ALLOWED_PWD_CHARS.data ∧ ¬ 'o' ∈ ALLOWED_PWD_CHARS.data := by
  decide

/-- Claim C4 (amended): every generated password has length exactly 23 and
every character is drawn from the fixed 55-character restricted alphabet
`ALLOWED_PWD_CHARS`. -/
theorem pwd_length_23_and_alphabet (rnd : Nat → Nat) :
    (get_random_password rnd).length = 23 ∧
    (∀ c ∈ (get_random_password rnd).data, c ∈ ALLOWED_PWD_CHARS.data) ∧
    ALLOWED_PWD_CHARS.length = 55 := by
  refine ⟨?_, ?_, by decide⟩
  · show ((List.range 23).map _).length = 23
    simp
  intro c hc
  have hc' : c ∈ (List.range 23).map
      (fun i => ALLOWED_PWD_CHARS.data.getD
        (rnd i % ALLOWED_PWD_CHARS.length) 'A') := hc
  obtain ⟨i, _, rfl⟩ := List.mem_map.mp hc'
  have hlt : rnd i % ALLOWED_PWD_CHARS.length <
      ALLOWED_PWD_CHARS.data.length :=
    Nat.mod_lt _ (by decide)
  rw [List.getD_eq_getElem _ _ hlt]
  exact List.getElem_mem _

/-- Concrete instance of C4 (amended): a password generated from the
constant random source has length 23, and its character is in the alphabet. -/
theorem pwd_length_23_and_alphabet_witness :
    (get_random_password (fun _ => 0)).length = 23 ∧
    'A' ∈ ALLOWED_PWD_CHARS.data :=
  ⟨(pwd_length_23_and_alphabet (fun _ => 0)).1,
   (pwd_length_23_and_alphabet (fun _ => 0)).2.1 'A' (by decide)⟩

/-- Claim C5: for an authenticated request, the four mapped paths resolve to
their assets with the documented content types, and every other path yields
exactly the `/index.html` response (same content and content type), never a
404. -/
theorem routing_resolution (app : DropAFileApplication)
    (assets : String → String) (req : Request)
    (h : app.check_auth req = true) :
    (req.path = "/dropzone.js" → (app.call assets req).1 =
      { status := 200, body := assets "dropzone.js",
        headers := [("Content-Type", "text/javascript")] }) ∧
    (req.path = "/dropzone.css" → (app.call assets req).1 =
      { status := 200, body := assets "dropzone.css",
        headers := [("Content-Type", "text/css")] }) ∧
    (req.path = "/style.css" → (app.call assets req).1 =
      { status := 200, body := assets "style.css",
        headers := [("Content-Type", "text/css")] }) ∧
    (req.path = "/index.html" → (app.call assets req).1 =
      { status := 200, body := assets "page.html",
        headers := [("Content-Type", "text/html")] }) ∧
    (pathMapLookup req.path = none → (app.call assets req).1 =
      { status := 200, body := assets "page.html",
        headers := [("Content-Type", "text/html")] }) := by
  have hcall : (app.call assets req).1 = staticResolve assets req.path := by
    simp [DropAFileApplication.call, h]
  refine ⟨?_, ?_, ?_, ?_, ?_⟩ <;> intro hp <;> rw [hcall]
  · rw [hp]; rfl
  · rw [hp]; rfl
  · rw [hp]; rfl
  · rw [hp]; rfl
  · simp [staticResolve, hp]
    exact ⟨rfl, rfl⟩

/-- Concrete instance of C5: `/dropzone.js` resolves to the script asset,
and an unmapped path resolves to the index page. -/
theorem routing_resolution_witness :
    ((DropAFileApplication.mk "pw" "/up").call (fun n => n)
        { path := "/dropzone.js", authorization := some ⟨"", "pw"⟩,
          files := [] }).1 =
      { status := 200, body := "dropzone.js",
        headers := [("Content-Type", "text/javascript")] } ∧
    ((DropAFileApplication.mk "pw" "/up").call (fun n => n)
        { path := "/some/unknown", authorization := some ⟨"", "pw"⟩,
          files := [] }).1 =
      { status := 200, body := "page.html",
        headers := [("Content-Type", "text/html")] } :=
  ⟨(routing_resolution (DropAFileApplication.mk "pw" "/up") (fun n => n)
      { path := "/dropzone.js", authorization := some ⟨"", "pw"⟩,
        files := [] } rfl).1 rfl,
   (routing_resolution (DropAFileApplication.mk "pw" "/up") (fun n => n)
      { path := "/some/unknown", authorization := some ⟨"", "pw"⟩,
        files := [] } rfl).2.2.2.2 rfl⟩

/-- Claim C6: an authenticated request with no `file` field performs no
write at all — the upload directory is untouched — and still receives the
normal 200 page response from static routing. -/
theorem no_file_field_noop (app : DropAFileApplication)
    (assets : String → String) (req : Request)
    (h : app.check_auth req = true)
    (hf : req.filesGet "file" = none) :
    app.call assets req = (staticResolve assets req.path, []) ∧
    (app.call assets req).1.status = 200 := by
  have hw : app.handle_uploaded_files req = [] := by
    unfold DropAFileApplication.handle_uploaded_files
    rw [hf]
  have hcall : app.call assets req = (staticResolve assets req.path, []) := by
    simp [DropAFileApplication.call, h, hw]
  refine ⟨hcall, ?_⟩
  rw [hcall]
  simp [staticResolve]

/-- Concrete instance of C6: an authenticated plain page load writes
nothing and gets the 200 page. -/
theorem no_file_field_noop_witness :
    (DropAFileApplication.mk "pw" "/up").call (fun _ => "page")
        { path := "/", authorization := some ⟨"", "pw"⟩, files := [] } =
      (staticResolve (fun _ => "page") "/", []) ∧
    ((DropAFileApplication.mk "pw" "/up").call (fun _ => "page")
        { path := "/", authorization := some ⟨"", "pw"⟩, files := [] }).1.status
      = 200 :=
  no_file_field_noop (DropAFileApplication.mk "pw" "/up") (fun _ => "page")
    { path := "/", authorization := some ⟨"", "pw"⟩, files := [] } rfl rfl

/-- Claim C7: the transport context built by `get_ssl_context` sets the
`OP_NO_SSLv2` (bit 24) and `OP_NO_SSLv3` (bit 25) options, changes no other
option bit (so modern protocol versions stay as negotiable as the default
options leave them), loads the supplied certificate chain and key, and
provisions a fresh pair via `create_ssl_cert` when either path is missing. -/
theorem ssl_context_hardening (cp kp : Option String) (defaultOptions : Nat)
    (mkdtemp moduleDir : String)
    (run : List String → Nat × String × String) :
    ((get_ssl_context cp kp defaultOptions mkdtemp moduleDir run).options.testBit 24
        = true ∧
     (get_ssl_context cp kp defaultOptions mkdtemp moduleDir run).options.testBit 25
        = true) ∧
    (∀ i, i ≠ 24 → i ≠ 25 →
      (get_ssl_context cp kp defaultOptions mkdtemp moduleDir run).options.testBit i
        = defaultOptions.testBit i) ∧
    (∀ c k, cp = some c → kp = some k →
      (get_ssl_context cp kp defaultOptions mkdtemp moduleDir run).certChain
        = some (c, k)) ∧
    ((cp = none ∨ kp = none) →
      (get_ssl_context cp kp defaultOptions mkdtemp moduleDir run).certChain
        = some (create_ssl_cert none 4096 2 "localhost" "US" "" ""
            mkdtemp moduleDir run)) := by
  have hop : (get_ssl_context cp kp defaultOptions mkdtemp moduleDir run).options
      = defaultOptions ||| OP_NO_SSLv2 ||| OP_NO_SSLv3 := rfl
  have h2 : OP_NO_SSLv2 = 2 ^ 24 := by norm_num [OP_NO_SSLv2]
  have h3 : OP_NO_SSLv3 = 2 ^ 25 := by norm_num [OP_NO_SSLv3]
  refine ⟨⟨?_, ?_⟩, ?_, ?_, ?_⟩
  · rw [hop]
    simp only [Nat.testBit_or]
    have hv : OP_NO_SSLv2.testBit 24 = true := by decide
    simp [hv]
  · rw [hop]
    simp only [Nat.testBit_or]
    have hv : OP_NO_SSLv3.testBit 25 = true := by decide
    simp [hv]
  · intro i hi24 hi25
    rw [hop]
    simp only [Nat.testBit_or]
    have hv2 : OP_NO_SSLv2.testBit i = false := by
      rw [h2, Nat.testBit_two_pow]
      simp [Ne.symm hi24]
    have hv3 : OP_NO_SSLv3.testBit i = false := by
      rw [h3, Nat.testBit_two_pow]
      simp [Ne.symm hi25]
    simp [hv2, hv3]
  · intro c k hc hk
    subst hc; subst hk
    simp [get_ssl_context]
  · intro hor
    unfold get_ssl_context
    rcases hor with hc | hk
    · subst hc; simp
    · subst hk; simp

/-- Concrete instance of C7: with both paths supplied, the chain is loaded
as given and the legacy-protocol bits are set; with a missing path, the
provisioned pair is loaded. -/
theorem ssl_context_hardening_witness :
    (get_ssl_context (some "c.pem") (some "k.pem") 0 "/t" "/m"
        (fun _ => (0, "", ""))).certChain = some ("c.pem", "k.pem") ∧
    (get_ssl_context (some "c.pem") (some "k.pem") 0 "/t" "/m"
        (fun _ => (0, "", ""))).options.testBit 24 = true ∧
    (get_ssl_context none none 0 "/t" "/m"
        (fun _ => (0, "", ""))).certChain =
      some ("/t/cert.pem", "/t/cert.key") := by
  have h := ssl_context_hardening (some "c.pem") (some "k.pem") 0 "/t" "/m"
    (fun _ => (0, "", ""))
  have h' := ssl_context_hardening none none 0 "/t" "/m"
    (fun _ => (0, "", ""))
  refine ⟨h.2.2.1 "c.pem" "k.pem" rfl rfl, h.1.1, ?_⟩
  have hcert : create_ssl_cert none 4096 2 "localhost" "US" "" "" "/t" "/m"
      (fun _ => (0, "", "")) = ("/t/cert.pem", "/t/cert.key") := by decide
  rw [h'.2.2.2 (Or.inl rfl), hcert]

/-- Claim C8: certificate provisioning returns the captured
(stdout, stderr) of the terminated process without inspecting its exit
status, and `create_ssl_cert` always returns
(`<dir>/cert.pem`, `<dir>/cert.key`) whatever the external command did. -/
theorem cert_provisioning_ignores_exit_status (path : Option String)
    (bits days : Nat) (cn country state location mkdtemp moduleDir : String)
    (run : List String → Nat × String × String) :
    create_ssl_cert path bits days cn country state location
        mkdtemp moduleDir run =
      (os_path_join (path.getD mkdtemp) "cert.pem",
       os_path_join (path.getD mkdtemp) "cert.key") ∧
    (∀ status status' out err,
      execute_cmd (status, out, err) = (out, err) ∧
      execute_cmd (status, out, err) = execute_cmd (status', out, err)) := by
  constructor
  · cases path with
    | none => rfl
    | some q => rfl
  · intro status status' out err
    exact ⟨rfl, rfl⟩

/-- Claim C9: a password supplied to the constructor is kept exactly as
given — only `None` triggers generation — so constructing with the empty
string keeps the empty secret and any request with empty Basic-Auth
password is then authenticated. -/
theorem explicit_password_kept (rnd : Nat → Nat) (tmpdir : String)
    (d : Option String) (p : String) :
    (DropAFileApplication.init (some p) d rnd tmpdir).password = p ∧
    (DropAFileApplication.init none d rnd tmpdir).password =
      get_random_password rnd ∧
    (∀ (u pth : String) (fs : List (String × UploadedFile)),
      (DropAFileApplication.init (some "") d rnd tmpdir).check_auth
        { path := pth, authorization := some ⟨u, ""⟩, files := fs } = true) := by
  refine ⟨rfl, rfl, ?_⟩
  intro u pth fs
  simp [DropAFileApplication.init, DropAFileApplication.check_auth]

/-- Claim C10, counterexample: `__call__` saves the upload before opening
the static asset, so when the upload directory aliases the static
directory (`upload_dir = <module>/static`), two authenticated requests to
the same path that differ only in an uploaded file named `page.html`
receive different responses — the upload does affect the response. -/
theorem upload_can_alter_response :
    (DropAFileApplication.mk "pw" "/m/static").check_auth
        { path := "/", authorization := some ⟨"", "pw"⟩, files := [] }
      = true ∧
    (DropAFileApplication.mk "pw" "/m/static").check_auth
        { path := "/", authorization := some ⟨"", "pw"⟩,
          files := [("file", ⟨"page.html", "NEW"⟩)] } = true ∧
    ((DropAFileApplication.mk "pw" "/m/static").callFS "/m"
        (fun p => if p = "/m/static/page.html" then "OLD" else "")
        { path := "/", authorization := some ⟨"", "pw"⟩, files := [] }).1 ≠
    ((DropAFileApplication.mk "pw" "/m/static").callFS "/m"
        (fun p => if p = "/m/static/page.html" then "OLD" else "")
        { path := "/", authorization := some ⟨"", "pw"⟩,
          files := [("file", ⟨"page.html", "NEW"⟩)] }).1 := by
  decide

/-- Claim C10 (amended): for two authenticated requests with the same path
that differ only in the `file` field, the responses are identical provided
the upload directory is not the module's static asset directory — the
upload then affects only the file system, never the response. -/
theorem response_independent_of_upload_outside_static
    (app : DropAFileApplication) (moduleDir : String) (fs : String → String)
    (r1 r2 : Request)
    (h1 : app.check_auth r1 = true) (h2 : app.check_auth r2 = true)
    (hp : r1.path = r2.path)
    (hd1 : app.upload_dir ≠ "")
    (hd2 : app.upload_dir.data.getLast? ≠ some '/')
    (hsep : app.upload_dir ≠ os_path_join moduleDir "static") :
    (app.callFS moduleDir fs r1).1 = (app.callFS moduleDir fs r2).1 := by
  have hread : ∀ r : Request, app.check_auth r = true →
      (app.callFS moduleDir fs r).1 =
        { status := 200,
          body := fs (staticFilePath moduleDir (resolvedAsset r.path).1),
          headers := [("Content-Type", (resolvedAsset r.path).2)] } := by
    intro r hr
    have hnw : ∀ w ∈ app.handle_uploaded_files r,
        w.1 ≠ staticFilePath moduleDir (resolvedAsset r.path).1 := by
      intro w hw
      unfold DropAFileApplication.handle_uploaded_files at hw
      rcases hfile : r.filesGet "file" with _ | f
      · rw [hfile] at hw
        simp at hw
      · rw [hfile] at hw
        simp only [List.mem_singleton] at hw
        subst hw
        show os_path_join app.upload_dir (secure_filename f.filename) ≠ _
        rw [os_path_join_of_secure app.upload_dir f.filename hd1 hd2]
        have hsf : staticFilePath moduleDir (resolvedAsset r.path).1 =
            os_path_join moduleDir "static" ++ "/" ++ (resolvedAsset r.path).1 :=
          os_path_join_eq _ _
            (head?_ne_slash_of_no_slash (resolvedAsset_no_slash r.path))
            (static_dir_ne_empty moduleDir)
            (static_dir_last_ne_slash moduleDir)
        rw [hsf]
        exact path_under_ne (secure_filename_no_slash f.filename)
          (resolvedAsset_no_slash r.path) hsep
    have happ := applyWrites_not_written fs (app.handle_uploaded_files r)
      (staticFilePath moduleDir (resolvedAsset r.path).1) hnw
    simp [DropAFileApplication.callFS, hr, happ]
  rw [hread r1 h1, hread r2 h2, hp]

/-- Concrete instance of C10 (amended): with an upload directory distinct
from the static directory, the response with and without an uploaded file
is the same. -/
theorem response_independent_of_upload_outside_static_witness :
    ((DropAFileApplication.mk "pw" "/up").callFS "/m" (fun _ => "X")
        { path := "/", authorization := some ⟨"", "pw"⟩, files := [] }).1 =
    ((DropAFileApplication.mk "pw" "/up").callFS "/m" (fun _ => "X")
        { path := "/", authorization := some ⟨"", "pw"⟩,
          files := [("file", ⟨"notes.txt", "hello"⟩)] }).1 :=
  response_independent_of_upload_outside_static
    (DropAFileApplication.mk "pw" "/up") "/m" (fun _ => "X")
    { path := "/", authorization := some ⟨"", "pw"⟩, files := [] }
    { path := "/", authorization := some ⟨"", "pw"⟩,
      files := [("file", ⟨"notes.txt", "hello"⟩)] }
    rfl rfl rfl (by decide) (by decide) (by decide)

end Dropafile
